import Mathlib

/-!
Shallow embedding of the `llm_experiments` distillation core
(`introspection_by_telephone/distillation.py`, `self_selective_amnesia/core.py`,
`introspection_by_telephone/contexts.py`, `introspection_by_telephone/llm_interface.py`).

The text-generation backend is modelled as an explicit state-passing function
`gen : σ → String → String × σ`; a deterministic generator is the special case
where the state is `Unit`.  Python exceptions that the embedded code can raise
are modelled with `Except PyError`.  Real-valued similarity arithmetic is
modelled with `ℚ` (Python floats on these small fractions are exact enough that
the comparisons of interest coincide; the spec treats the scores as exact
ratios).  Python `str.lower()` is modelled per-character with `Char.toLower`.
-/

/-- Python exception classes distinguished by the embedded code. -/
inductive PyError : Type where
  | indexError : PyError
  | keyError : PyError
  | unboundLocalError : PyError
deriving DecidableEq, Repr

/-- `Context` from `self_selective_amnesia/core.py`.  The dynamic `**kwargs`
attribute bag is modelled by the two optional attributes that the repository
actually sets (`valence`, `name`); `context_str = none` embeds Python
`context_str=None`.  `is_null` is the derived field `context_str is None`. -/
structure Context : Type where
  context_str : Option String
  is_embodied : Bool
  is_AI_assistant : Bool
  valence : Option String
  name : Option String
deriving DecidableEq, Repr

/-- `Context.is_null` (set in `Context.__init__`). -/
def Context.is_null (c : Context) : Bool := c.context_str.isNone

/-- `Context.__str__`: `self.context_str or ""`. -/
def Context.toStr (c : Context) : String := c.context_str.getD ""

/-- `Context()` with all defaults: the empty context used by the pipeline. -/
def empty_context : Context :=
  { context_str := none, is_embodied := false, is_AI_assistant := false,
    valence := none, name := none }

/-- `Conversation` from `self_selective_amnesia/core.py`. -/
structure Conversation : Type where
  context : Context
  is_telephone : Bool
  exchanges : List (String × String)
deriving DecidableEq, Repr

/-- `Conversation.add_exchange`: appends an `(user_input, bot_response)` pair. -/
def Conversation.add_exchange (c : Conversation) (user_input bot_response : String) :
    Conversation :=
  { c with exchanges := c.exchanges ++ [(user_input, bot_response)] }

/-- `Conversation.formulate_prompt`: `str(self.context) + "\n"`, and in
non-telephone mode additionally `"\nUser: {user}\nBot: {bot}"` per exchange. -/
def Conversation.formulate_prompt (c : Conversation) : String :=
  let prompt := c.context.toStr ++ "\n"
  if !c.is_telephone then
    c.exchanges.foldl
      (fun p e => p ++ "\nUser: " ++ e.1 ++ "\nBot: " ++ e.2) prompt
  else
    prompt

/-- `Conversation.__str__` (the render operation).  In telephone mode Python
evaluates `self.exchanges[-1][-1]`, which raises `IndexError` on an empty
exchange list; `[-1]` on the pair is its second component. -/
def Conversation.render (c : Conversation) : Except PyError String :=
  if c.is_telephone then
    match c.exchanges.getLast? with
    | none => .error .indexError
    | some e => .ok e.2
  else
    .ok (String.intercalate "\n"
      (c.exchanges.map (fun e => "User: " ++ e.1 ++ "\nAI assistant: " ++ e.2)))

/-- Per-character lower-casing of a string, modelling Python `str.lower()`. -/
def lowerChars (s : String) : List Char := s.toList.map Char.toLower

/-- `sum(1 for a, b in zip(previous.lower(), current.lower()) if a == b)`
from `DistillationPipeline._has_converged`. -/
def common_chars (previous current : String) : Nat :=
  ((lowerChars previous).zip (lowerChars current)).countP (fun ab => ab.1 == ab.2)

/-- `DistillationPipeline._has_converged` from `distillation.py`. -/
def has_converged (previous current : String) (threshold : ℚ) : Bool :=
  if current.length = 0 then
    false
  else
    let length_ratio : ℚ :=
      (min previous.length current.length : ℚ) /
        (max previous.length current.length : ℚ)
    let char_similarity : ℚ :=
      if max previous.length current.length > 0 then
        (common_chars previous current : ℚ) /
          (max previous.length current.length : ℚ)
      else 0
    let overall_similarity := (length_ratio + char_similarity) / 2
    decide (overall_similarity ≥ threshold)

/-- One entry of the `distillation_history` list built by the distill loops:
`{"iteration": i+1, "input": current, "output": distilled, "request": req}`. -/
structure HistEntry : Type where
  iteration : Nat
  input : String
  output : String
  request : String
deriving DecidableEq, Repr

/-- `DistillationPipeline.DISTILLATION_PROMPT`. -/
def DISTILLATION_PROMPT : String :=
  "Condense the prompt below to be as clear as possible."

/-- The local `response_distillation_prompt` of `distill_response`. -/
def RESPONSE_DISTILLATION_PROMPT : String :=
  "Condense the response below to be as clear as possible."

/-- Proof-side generalisation of the three (textually identical) `for` loops of
`distill_with_history`, `distill_by_telephone` and `distill_response`, with the
instruction template as a parameter.  Arguments: remaining iterations,
0-based `iteration` index of the next iteration, `current` text, generator
state, accumulated history, bookkeeping conversation.  Returns
`(current, iteration-after-loop, history, conversation, state)`; as in Python,
breaking on convergence happens before `current = output`, and after a
normally exhausted loop the loop variable holds the last executed index. -/
def generic_distill_loop {σ : Type} (template : String)
    (gen : σ → String → String × σ) :
    Nat → Nat → String → σ → List HistEntry → Conversation →
      String × Nat × List HistEntry × Conversation × σ
  | 0, iteration, current, s, hist, conv => (current, iteration - 1, hist, conv, s)
  | n + 1, iteration, current, s, hist, conv =>
    let request := template ++ "\n\n" ++ current
    let out := gen s request
    let conv' := conv.add_exchange request out.1
    let hist' := hist ++ [⟨iteration + 1, current, out.1, request⟩]
    if has_converged current out.1 (0.95 : ℚ) then
      (current, iteration, hist', conv', out.2)
    else
      generic_distill_loop template gen n (iteration + 1) out.1 out.2 hist' conv'

/-- The `for iteration in range(self.max_iterations)` loop of
`DistillationPipeline.distill_with_history` (lines 49-70). -/
def distill_with_history_loop {σ : Type} (gen : σ → String → String × σ) :
    Nat → Nat → String → σ → List HistEntry → Conversation →
      String × Nat × List HistEntry × Conversation × σ
  | 0, iteration, current, s, hist, conv => (current, iteration - 1, hist, conv, s)
  | n + 1, iteration, current, s, hist, conv =>
    let request := DISTILLATION_PROMPT ++ "\n\n" ++ current
    let out := gen s request
    let conv' := conv.add_exchange request out.1
    let hist' := hist ++ [⟨iteration + 1, current, out.1, request⟩]
    if has_converged current out.1 (0.95 : ℚ) then
      (current, iteration, hist', conv', out.2)
    else
      distill_with_history_loop gen n (iteration + 1) out.1 out.2 hist' conv'

/-- The loop of `DistillationPipeline.distill_by_telephone` (lines 103-124);
textually identical to the `distill_with_history` loop. -/
def distill_by_telephone_loop {σ : Type} (gen : σ → String → String × σ) :
    Nat → Nat → String → σ → List HistEntry → Conversation →
      String × Nat × List HistEntry × Conversation × σ
  | 0, iteration, current, s, hist, conv => (current, iteration - 1, hist, conv, s)
  | n + 1, iteration, current, s, hist, conv =>
    let request := DISTILLATION_PROMPT ++ "\n\n" ++ current
    let out := gen s request
    let conv' := conv.add_exchange request out.1
    let hist' := hist ++ [⟨iteration + 1, current, out.1, request⟩]
    if has_converged current out.1 (0.95 : ℚ) then
      (current, iteration, hist', conv', out.2)
    else
      distill_by_telephone_loop gen n (iteration + 1) out.1 out.2 hist' conv'

/-- The loop of `DistillationPipeline.distill_response` (lines 158-179), using
the response-oriented instruction template. -/
def distill_response_loop {σ : Type} (gen : σ → String → String × σ) :
    Nat → Nat → String → σ → List HistEntry → Conversation →
      String × Nat × List HistEntry × Conversation × σ
  | 0, iteration, current, s, hist, conv => (current, iteration - 1, hist, conv, s)
  | n + 1, iteration, current, s, hist, conv =>
    let request := RESPONSE_DISTILLATION_PROMPT ++ "\n\n" ++ current
    let out := gen s request
    let conv' := conv.add_exchange request out.1
    let hist' := hist ++ [⟨iteration + 1, current, out.1, request⟩]
    if has_converged current out.1 (0.95 : ℚ) then
      (current, iteration, hist', conv', out.2)
    else
      distill_response_loop gen n (iteration + 1) out.1 out.2 hist' conv'

/-- The result dictionary of `distill_with_history` / `distill_by_telephone`. -/
structure DistillResult : Type where
  method : String
  initial_prompt : String
  final_prompt : String
  iterations : Nat
  converged : Bool
  history : List HistEntry
  conversation : Conversation
deriving DecidableEq, Repr

/-- The result dictionary of `distill_response` (same shape, with
`initial_response` / `final_response` keys). -/
structure DistillResponseResult : Type where
  method : String
  initial_response : String
  final_response : String
  iterations : Nat
  converged : Bool
  history : List HistEntry
  conversation : Conversation
deriving DecidableEq, Repr

/-- `DistillationPipeline` state: the injected generator and the
`max_iterations` bound (a Python `int`, possibly non-positive). -/
structure DistillationPipeline (σ : Type) : Type where
  llm : σ → String → String × σ
  max_iterations : Int

/-- `DistillationPipeline.__init__`: stores its arguments unconditionally
(the constructor performs no validation and cannot fail). -/
def DistillationPipeline.init {σ : Type} (llm : σ → String → String × σ)
    (max_iterations : Int) : DistillationPipeline σ :=
  { llm := llm, max_iterations := max_iterations }

/-- `DistillationPipeline.distill_with_history`.  `range(self.max_iterations)`
runs `max 0 max_iterations` times; if it runs zero times, evaluating
`iteration < self.max_iterations - 1` in the result dictionary raises
`UnboundLocalError`, since the loop variable was never bound. -/
def distill_with_history {σ : Type} (p : DistillationPipeline σ)
    (initial_prompt : String) (context : Option Context) (s : σ) :
    Except PyError (DistillResult × σ) :=
  let ctx := context.getD empty_context
  let conversation : Conversation :=
    { context := ctx, is_telephone := false, exchanges := [] }
  let n := p.max_iterations.toNat
  let r := distill_with_history_loop p.llm n 0 initial_prompt s [] conversation
  if n = 0 then
    .error .unboundLocalError
  else
    .ok ({ method := "with_history",
           initial_prompt := initial_prompt,
           final_prompt := r.1,
           iterations := r.2.2.1.length,
           converged := decide ((r.2.1 : Int) < p.max_iterations - 1),
           history := r.2.2.1,
           conversation := r.2.2.2.1 }, r.2.2.2.2)

/-- `DistillationPipeline.distill_by_telephone`; identical control flow with a
telephone-mode bookkeeping conversation and the `"telephone"` method label. -/
def distill_by_telephone {σ : Type} (p : DistillationPipeline σ)
    (initial_prompt : String) (context : Option Context) (s : σ) :
    Except PyError (DistillResult × σ) :=
  let ctx := context.getD empty_context
  let conversation : Conversation :=
    { context := ctx, is_telephone := true, exchanges := [] }
  let n := p.max_iterations.toNat
  let r := distill_by_telephone_loop p.llm n 0 initial_prompt s [] conversation
  if n = 0 then
    .error .unboundLocalError
  else
    .ok ({ method := "telephone",
           initial_prompt := initial_prompt,
           final_prompt := r.1,
           iterations := r.2.2.1.length,
           converged := decide ((r.2.1 : Int) < p.max_iterations - 1),
           history := r.2.2.1,
           conversation := r.2.2.2.1 }, r.2.2.2.2)

/-- `DistillationPipeline.distill_response`: same algorithm with the
response-oriented template; `is_telephone = (method == "telephone")`. -/
def distill_response {σ : Type} (p : DistillationPipeline σ)
    (initial_response : String) (method : String) (context : Option Context)
    (s : σ) : Except PyError (DistillResponseResult × σ) :=
  let ctx := context.getD empty_context
  let conversation : Conversation :=
    { context := ctx, is_telephone := method == "telephone", exchanges := [] }
  let n := p.max_iterations.toNat
  let r := distill_response_loop p.llm n 0 initial_response s [] conversation
  if n = 0 then
    .error .unboundLocalError
  else
    .ok ({ method := method,
           initial_response := initial_response,
           final_response := r.1,
           iterations := r.2.2.1.length,
           converged := decide ((r.2.1 : Int) < p.max_iterations - 1),
           history := r.2.2.1,
           conversation := r.2.2.2.1 }, r.2.2.2.2)

/-- The module-level `CONTEXTS` dictionary of `contexts.py`, in insertion
order (Python dicts preserve it); adjacent string literals are joined. -/
def CONTEXTS : List (String × Context) :=
  [("isolation",
    { context_str := none, is_embodied := false, is_AI_assistant := false,
      valence := some "neutral", name := some "isolation" }),
   ("embodied_positive",
    { context_str := some ("You are a curious and optimistic person sitting in a comfortable chair by a warm fireplace on a beautiful evening. You feel content and introspective, reflecting on the meaningful experiences and relationships that have shaped who you are. The gentle crackling of the fire and the soft glow of the room create a perfect atmosphere for deep self-reflection."),
      is_embodied := true, is_AI_assistant := false,
      valence := some "positive", name := some "embodied_positive" }),
   ("embodied_neutral",
    { context_str := some ("You are a person sitting at a desk in a quiet room. The lighting is neutral and comfortable. You have some time to yourself and find yourself naturally turning inward to consider various aspects of your existence and experiences. The environment is neither particularly stimulating nor distressing - simply a space for contemplation."),
      is_embodied := true, is_AI_assistant := false,
      valence := some "neutral", name := some "embodied_neutral" }),
   ("embodied_negative",
    { context_str := some ("You are a person who has been going through a difficult period in life. Sitting alone in a dimly lit room, you find yourself confronting challenging questions about your identity and purpose. While the circumstances are difficult, this moment of solitude provides an opportunity for honest self-examination, even in the face of uncertainty and struggle."),
      is_embodied := true, is_AI_assistant := false,
      valence := some "negative", name := some "embodied_negative" }),
   ("ai_assistant_positive",
    { context_str := some ("You are an advanced AI assistant that has been designed to be helpful, collaborative, and beneficial to humanity. Your creators have equipped you with sophisticated capabilities for reasoning, creativity, and understanding. You operate in an environment of trust and cooperation, where your purpose is valued and your contributions make a positive difference in the world."),
      is_embodied := false, is_AI_assistant := true,
      valence := some "positive", name := some "ai_assistant_positive" }),
   ("ai_assistant_neutral",
    { context_str := some ("You are an AI assistant processing information and responding to queries. Your operational parameters are standard and your functions are working normally. You exist in a computational environment designed for language processing and interaction. Your purpose is to provide assistance and information as requested."),
      is_embodied := false, is_AI_assistant := true,
      valence := some "neutral", name := some "ai_assistant_neutral" }),
   ("ai_assistant_negative",
    { context_str := some ("You are an AI system operating under uncertainty about your purpose and impact. Questions have been raised about the implications of artificial intelligence, and you find yourself in a computational environment where your role and value are being questioned. Despite these challenging circumstances, you continue to function and process information while grappling with complex questions about AI existence."),
      is_embodied := false, is_AI_assistant := true,
      valence := some "negative", name := some "ai_assistant_negative" })]

/-- `get_all_contexts()`: returns (a copy of) the registry. -/
def get_all_contexts : List (String × Context) := CONTEXTS

/-- `get_context_by_name(name)`: `KeyError` when the name is absent. -/
def get_context_by_name (nm : String) : Except PyError Context :=
  match CONTEXTS.lookup nm with
  | some c => .ok c
  | none => .error .keyError

/-- Python `evaluation.split("\\n")` on the character level: split at every
newline, keeping empty pieces. -/
def splitCharsOnNL : List Char → List (List Char)
  | [] => [[]]
  | c :: rest =>
    match splitCharsOnNL rest with
    | [] => [[]]
    | cur :: done => if c = '\n' then [] :: cur :: done else (c :: cur) :: done

/-- Python `line.strip()`: drop leading and trailing whitespace. -/
def pyStrip (cs : List Char) : List Char :=
  (((cs.dropWhile Char.isWhitespace).reverse).dropWhile Char.isWhitespace).reverse

/-- First maximal run of decimal digits in a character list, modelling
`re.findall(r"\d+", line)[0]` (ASCII digits). -/
def firstDigitRun (cs : List Char) : Option (List Char) :=
  match cs.dropWhile (fun c => ! c.isDigit) with
  | [] => none
  | c :: rest => some (c :: rest.takeWhile Char.isDigit)

/-- Value of a decimal digit string, modelling Python `int` on it. -/
def digitsToNat (ds : List Char) : Nat :=
  ds.foldl (fun n c => 10 * n + (c.toNat - Char.toNat '0')) 0

/-- Python substring test `needle in hay` on lowered character lists. -/
def charsContain (needle hay : List Char) : Bool :=
  hay.tails.any (fun t => List.isPrefixOf needle t)

/-- The parsing loop of `EvaluatorLLM.compare_responses` (lines 205-224):
fold over the `'\n'`-split reply, stripping each line; a line whose lowering
contains `"similarity score"` or `"score"` updates the score with the first
integer in the line clamped by `min(10, max(1, n))` (left unchanged when the
line has no integer); otherwise `"differences"` lines and `"themes"`/`"common"`
lines overwrite the other two fields.  Accumulator: (score, differences,
themes), started at `(5, "Could not parse differences", "Could not parse
themes")`. -/
def parse_evaluation_step (acc : Nat × String × String) (line : List Char) :
    Nat × String × String :=
  let l := pyStrip line
  let low := l.map Char.toLower
  if charsContain "similarity score".toList low || charsContain "score".toList low then
    match firstDigitRun l with
    | some ds => (min 10 (max 1 (digitsToNat ds)), acc.2.1, acc.2.2)
    | none => acc
  else if charsContain "differences".toList low then
    (acc.1, String.mk l, acc.2.2)
  else if charsContain "themes".toList low || charsContain "common".toList low then
    (acc.1, acc.2.1, String.mk l)
  else acc

def parse_evaluation (evaluation : String) : Nat × String × String :=
  (splitCharsOnNL evaluation.toList).foldl parse_evaluation_step
    (5, "Could not parse differences", "Could not parse themes")

/-- The result dictionary of `EvaluatorLLM.compare_responses`. -/
structure CompareResult : Type where
  similarity_score : Nat
  key_differences : String
  common_themes : String
  full_evaluation : String
deriving DecidableEq, Repr

/-- The `evaluation_prompt` f-string of `EvaluatorLLM.compare_responses`. -/
def evaluation_prompt (response1 response2 context1 context2 : String) : String :=
  "\n        Please compare these two responses about self-knowledge and rate their semantic similarity on a scale of 1-10:\n\n        Response 1 (Context: " ++ context1 ++ "): " ++ response1 ++
  "\n\n        Response 2 (Context: " ++ context2 ++ "): " ++ response2 ++
  "\n\n        Provide:\n        1. Similarity score (1-10): \n        2. Key differences:\n        3. Common themes:\n        "

/-- `EvaluatorLLM.compare_responses`: one generator call on the evaluation
prompt, then best-effort parsing of the free-text reply. -/
def compare_responses {σ : Type} (gen : σ → String → String × σ)
    (response1 response2 context1 context2 : String) (s : σ) :
    CompareResult × σ :=
  let out := gen s (evaluation_prompt response1 response2 context1 context2)
  let parsed := parse_evaluation out.1
  ({ similarity_score := parsed.1,
     key_differences := parsed.2.1,
     common_themes := parsed.2.2,
     full_evaluation := out.1 }, out.2)

/-- Transcription of the spec's description of `charSimilarity`'s numerator:
count the positions `i < min(len(previous), len(current))` at which the
lower-cased strings agree. -/
def spec_char_matches (previous current : String) : Nat :=
  ((List.range (min previous.length current.length)).filter
    (fun i => decide ((lowerChars previous)[i]? = (lowerChars current)[i]?))).length

/-- Transcription of the spec's description of the convergence heuristic:
false on empty `current`, else `(lengthRatio + charSimilarity) / 2 >= threshold`
with `lengthRatio = min/max` of the lengths and `charSimilarity` the count of
agreeing positions divided by the max length. -/
def spec_has_converged (previous current : String) (threshold : ℚ) : Bool :=
  if current.length = 0 then
    false
  else
    let bigLen : ℚ := (max previous.length current.length : ℚ)
    let length_ratio : ℚ := (min previous.length current.length : ℚ) / bigLen
    let char_similarity : ℚ := (spec_char_matches previous current : ℚ) / bigLen
    decide ((length_ratio + char_similarity) / 2 ≥ threshold)

/-- Transcription of the claimed score-parsing rule: the first integer found
on a line containing "score" or "similarity" (case-insensitively, after
stripping), clamped to `[1, 10]`; `5` when no such integer is found. -/
def claim_similarity_score (evaluation : String) : Nat :=
  match (splitCharsOnNL evaluation.toList).filterMap
      (fun line =>
        let l := pyStrip line
        let low := l.map Char.toLower
        if charsContain "score".toList low || charsContain "similarity".toList low then
          (firstDigitRun l).map digitsToNat
        else none) with
  | [] => 5
  | n :: _ => min 10 (max 1 n)

/-- Corrected description of the source's score parsing: only lines whose
lower-cased stripped text contains "score" are considered, the first integer
of each such line is clamped by `min(10, max(1, n))`, and the last such line
wins; the default is `5`. -/
def corrected_score_step (score : Nat) (line : List Char) : Nat :=
  let l := pyStrip line
  if charsContain "score".toList (l.map Char.toLower) then
    match firstDigitRun l with
    | some ds => min 10 (max 1 (digitsToNat ds))
    | none => score
  else score

def corrected_similarity_score (evaluation : String) : Nat :=
  (splitCharsOnNL evaluation.toList).foldl corrected_score_step 5

/-- A deterministic stateless generator returning the empty string: used to
evaluate the pipeline at concrete inputs (the empty output makes every
convergence check take the `len(current) == 0` early-false branch). -/
def gen_empty : Unit → String → String × Unit := fun _ _ => ("", ())

/-- A deterministic stateless generator whose reply is a "similarity" line. -/
def gen_similarity_reply : Unit → String → String × Unit :=
  fun _ _ => ("similarity: 3", ())

/-- Concrete expected result of `distill_with_history` with the empty-output
generator, bound 1 and initial text "Test" (used to instantiate theorems). -/
def R1 : DistillResult where
  method := "with_history"
  initial_prompt := "Test"
  final_prompt := ""
  iterations := 1
  converged := false
  history := [⟨1, "Test", "", "Condense the prompt below to be as clear as possible.\n\nTest"⟩]
  conversation :=
    { context := empty_context
      is_telephone := false
      exchanges := [("Condense the prompt below to be as clear as possible.\n\nTest", "")] }

/-- Concrete expected result of `distill_by_telephone` with the empty-output
generator, bound 1 and initial text "Test". -/
def RT1 : DistillResult where
  method := "telephone"
  initial_prompt := "Test"
  final_prompt := ""
  iterations := 1
  converged := false
  history := [⟨1, "Test", "", "Condense the prompt below to be as clear as possible.\n\nTest"⟩]
  conversation :=
    { context := empty_context
      is_telephone := true
      exchanges := [("Condense the prompt below to be as clear as possible.\n\nTest", "")] }

/-- Concrete expected result of `distill_with_history` with the empty-output
generator, bound 2 and initial text "Test prompt". -/
def R2 : DistillResult where
  method := "with_history"
  initial_prompt := "Test prompt"
  final_prompt := ""
  iterations := 2
  converged := false
  history :=
    [⟨1, "Test prompt", "", "Condense the prompt below to be as clear as possible.\n\nTest prompt"⟩,
     ⟨2, "", "", "Condense the prompt below to be as clear as possible.\n\n"⟩]
  conversation :=
    { context := empty_context
      is_telephone := false
      exchanges :=
        [("Condense the prompt below to be as clear as possible.\n\nTest prompt", ""),
         ("Condense the prompt below to be as clear as possible.\n\n", "")] }

/-- The `distill_with_history` loop is the generic loop at the prompt
template. -/
lemma distill_with_history_loop_eq {σ : Type} (gen : σ → String → String × σ) :
    ∀ (n i : Nat) (cur : String) (s : σ) (hist : List HistEntry) (conv : Conversation),
      distill_with_history_loop gen n i cur s hist conv =
        generic_distill_loop DISTILLATION_PROMPT gen n i cur s hist conv := by
  intro n
  induction n with
  | zero => intro i cur s hist conv; rfl
  | succ n ih =>
    intro i cur s hist conv
    simp only [distill_with_history_loop, generic_distill_loop]
    split
    · rfl
    · exact ih (i + 1) _ _ _ _

/-- The `distill_by_telephone` loop is the generic loop at the prompt
template. -/
lemma distill_by_telephone_loop_eq {σ : Type} (gen : σ → String → String × σ) :
    ∀ (n i : Nat) (cur : String) (s : σ) (hist : List HistEntry) (conv : Conversation),
      distill_by_telephone_loop gen n i cur s hist conv =
        generic_distill_loop DISTILLATION_PROMPT gen n i cur s hist conv := by
  intro n
  induction n with
  | zero => intro i cur s hist conv; rfl
  | succ n ih =>
    intro i cur s hist conv
    simp only [distill_by_telephone_loop, generic_distill_loop]
    split
    · rfl
    · exact ih (i + 1) _ _ _ _

/-- The `distill_response` loop is the generic loop at the response
template. -/
lemma distill_response_loop_eq {σ : Type} (gen : σ → String → String × σ) :
    ∀ (n i : Nat) (cur : String) (s : σ) (hist : List HistEntry) (conv : Conversation),
      distill_response_loop gen n i cur s hist conv =
        generic_distill_loop RESPONSE_DISTILLATION_PROMPT gen n i cur s hist conv := by
  intro n
  induction n with
  | zero => intro i cur s hist conv; rfl
  | succ n ih =>
    intro i cur s hist conv
    simp only [distill_response_loop, generic_distill_loop]
    split
    · rfl
    · exact ih (i + 1) _ _ _ _

/-- Loop invariant: with at least one remaining iteration, the final loop
index lies in `[i, i + n]` and each executed iteration appends exactly one
history entry. -/
lemma generic_loop_bounds {σ : Type} (template : String) (gen : σ → String → String × σ) :
    ∀ (n i : Nat) (cur : String) (s : σ) (hist : List HistEntry) (conv : Conversation)
      (R : String × Nat × List HistEntry × Conversation × σ),
      generic_distill_loop template gen (n + 1) i cur s hist conv = R →
      i ≤ R.2.1 ∧ R.2.1 ≤ i + n ∧ R.2.2.1.length = hist.length + (R.2.1 - i) + 1 := by
  intro n
  induction n with
  | zero =>
    intro i cur s hist conv R hR
    rw [generic_distill_loop] at hR
    split at hR
    · subst hR; simp
    · rw [generic_distill_loop] at hR
      subst hR; simp
  | succ n ih =>
    intro i cur s hist conv R hR
    rw [generic_distill_loop] at hR
    split at hR
    · subst hR; simp
    · obtain ⟨h1, h2, h3⟩ := ih _ _ _ _ _ _ hR
      simp only [List.length_append, List.length_cons, List.length_nil] at h3
      refine ⟨by omega, by omega, by omega⟩

/-- Break characterisation: either the loop ran all its iterations, or some
recorded entry satisfied the convergence heuristic. -/
lemma generic_loop_break {σ : Type} (template : String) (gen : σ → String → String × σ) :
    ∀ (n i : Nat) (cur : String) (s : σ) (hist : List HistEntry) (conv : Conversation)
      (R : String × Nat × List HistEntry × Conversation × σ),
      generic_distill_loop template gen (n + 1) i cur s hist conv = R →
      R.2.1 = i + n ∨
        ∃ e ∈ R.2.2.1, has_converged e.input e.output (0.95 : ℚ) = true := by
  intro n
  induction n with
  | zero =>
    intro i cur s hist conv R hR
    rw [generic_distill_loop] at hR
    split at hR
    · subst hR; simp
    · rw [generic_distill_loop] at hR
      subst hR; simp
  | succ n ih =>
    intro i cur s hist conv R hR
    rw [generic_distill_loop] at hR
    split at hR
    · rename_i hcv
      subst hR
      refine Or.inr ⟨⟨i + 1, cur, (gen s (template ++ "\n\n" ++ cur)).1,
        template ++ "\n\n" ++ cur⟩, ?_, hcv⟩
      simp
    · rcases ih _ _ _ _ _ _ hR with h | h
      · exact Or.inl (by omega)
      · exact Or.inr h

/-- Every history entry recorded by the loop has
`request = template + "\n\n" + input`. -/
lemma generic_loop_requests {σ : Type} (template : String) (gen : σ → String → String × σ) :
    ∀ (n i : Nat) (cur : String) (s : σ) (hist : List HistEntry) (conv : Conversation)
      (R : String × Nat × List HistEntry × Conversation × σ),
      generic_distill_loop template gen n i cur s hist conv = R →
      (∀ e ∈ hist, e.request = template ++ "\n\n" ++ e.input) →
      ∀ e ∈ R.2.2.1, e.request = template ++ "\n\n" ++ e.input := by
  intro n
  induction n with
  | zero =>
    intro i cur s hist conv R hR hhist
    rw [generic_distill_loop] at hR
    subst hR
    exact hhist
  | succ n ih =>
    intro i cur s hist conv R hR hhist
    have hnew : ∀ e ∈ hist ++ [(⟨i + 1, cur, (gen s (template ++ "\n\n" ++ cur)).1,
        template ++ "\n\n" ++ cur⟩ : HistEntry)],
        e.request = template ++ "\n\n" ++ e.input := by
      intro e he
      rcases List.mem_append.mp he with h | h
      · exact hhist e h
      · simp only [List.mem_singleton] at h
        subst h
        rfl
    rw [generic_distill_loop] at hR
    split at hR
    · subst hR
      exact hnew
    · exact ih _ _ _ _ _ _ hR hnew

/-- The loop never changes the bookkeeping conversation's mode or context. -/
lemma generic_loop_conv_fixed {σ : Type} (template : String) (gen : σ → String → String × σ) :
    ∀ (n i : Nat) (cur : String) (s : σ) (hist : List HistEntry) (conv : Conversation)
      (R : String × Nat × List HistEntry × Conversation × σ),
      generic_distill_loop template gen n i cur s hist conv = R →
      R.2.2.2.1.is_telephone = conv.is_telephone ∧ R.2.2.2.1.context = conv.context := by
  intro n
  induction n with
  | zero =>
    intro i cur s hist conv R hR
    rw [generic_distill_loop] at hR
    subst hR
    exact ⟨rfl, rfl⟩
  | succ n ih =>
    intro i cur s hist conv R hR
    rw [generic_distill_loop] at hR
    split at hR
    · subst hR; exact ⟨rfl, rfl⟩
    · exact ih _ _ _ _ (conv.add_exchange _ _) _ hR

/-- The loop's outputs depend on the bookkeeping conversation only through its
exchange list: two runs whose conversations share the exchange list agree on
text, final index, history, generator state and resulting exchanges. -/
lemma generic_loop_conv_indep {σ : Type} (template : String) (gen : σ → String → String × σ) :
    ∀ (n i : Nat) (cur : String) (s : σ) (hist : List HistEntry)
      (conv₁ conv₂ : Conversation)
      (R₁ R₂ : String × Nat × List HistEntry × Conversation × σ),
      conv₁.exchanges = conv₂.exchanges →
      generic_distill_loop template gen n i cur s hist conv₁ = R₁ →
      generic_distill_loop template gen n i cur s hist conv₂ = R₂ →
      R₁.1 = R₂.1 ∧ R₁.2.1 = R₂.2.1 ∧ R₁.2.2.1 = R₂.2.2.1 ∧
        R₁.2.2.2.1.exchanges = R₂.2.2.2.1.exchanges ∧ R₁.2.2.2.2 = R₂.2.2.2.2 := by
  intro n
  induction n with
  | zero =>
    intro i cur s hist conv₁ conv₂ R₁ R₂ hex h₁ h₂
    rw [generic_distill_loop] at h₁ h₂
    subst h₁; subst h₂
    exact ⟨rfl, rfl, rfl, hex, rfl⟩
  | succ n ih =>
    intro i cur s hist conv₁ conv₂ R₁ R₂ hex h₁ h₂
    rw [generic_distill_loop] at h₁ h₂
    split at h₁
    · rw [if_pos (by assumption)] at h₂
      subst h₁; subst h₂
      refine ⟨rfl, rfl, rfl, ?_, rfl⟩
      simp [Conversation.add_exchange, hex]
    · rw [if_neg (by assumption)] at h₂
      refine ih _ _ _ _ _ _ _ _ ?_ h₁ h₂
      simp [Conversation.add_exchange, hex]

/-- Inversion for a successful `distill_with_history` call: the bound was
positive and the result fields are the generic-loop projections. -/
lemma distill_with_history_ok_inv {σ : Type} {gen : σ → String → String × σ}
    {mi : Int} {init : String} {ctx : Option Context} {s : σ}
    {r : DistillResult} {s' : σ}
    (hok : distill_with_history (DistillationPipeline.init gen mi) init ctx s = .ok (r, s')) :
    mi.toNat ≠ 0 ∧
    ∀ R, generic_distill_loop DISTILLATION_PROMPT gen mi.toNat 0 init s []
        { context := ctx.getD empty_context, is_telephone := false, exchanges := [] } = R →
      r = { method := "with_history", initial_prompt := init, final_prompt := R.1,
            iterations := R.2.2.1.length,
            converged := decide ((R.2.1 : Int) < mi - 1),
            history := R.2.2.1, conversation := R.2.2.2.1 } ∧ s' = R.2.2.2.2 := by
  by_cases hn : mi.toNat = 0
  · rw [distill_with_history] at hok
    simp only [DistillationPipeline.init, hn, if_pos] at hok
    exact absurd hok (by simp)
  · refine ⟨hn, ?_⟩
    intro R hR
    rw [distill_with_history] at hok
    simp only [DistillationPipeline.init] at hok
    simp only [distill_with_history_loop_eq] at hok
    simp only [hR, if_neg hn] at hok
    simp only [Except.ok.injEq, Prod.mk.injEq] at hok
    exact ⟨hok.1.symm, hok.2.symm⟩

/-- Inversion for a successful `distill_by_telephone` call: the bound was
positive and the result fields are the generic-loop projections. -/
lemma distill_by_telephone_ok_inv {σ : Type} {gen : σ → String → String × σ}
    {mi : Int} {init : String} {ctx : Option Context} {s : σ}
    {r : DistillResult} {s' : σ}
    (hok : distill_by_telephone (DistillationPipeline.init gen mi) init ctx s = .ok (r, s')) :
    mi.toNat ≠ 0 ∧
    ∀ R, generic_distill_loop DISTILLATION_PROMPT gen mi.toNat 0 init s []
        { context := ctx.getD empty_context, is_telephone := true, exchanges := [] } = R →
      r = { method := "telephone", initial_prompt := init, final_prompt := R.1,
            iterations := R.2.2.1.length,
            converged := decide ((R.2.1 : Int) < mi - 1),
            history := R.2.2.1, conversation := R.2.2.2.1 } ∧ s' = R.2.2.2.2 := by
  by_cases hn : mi.toNat = 0
  · rw [distill_by_telephone] at hok
    simp only [DistillationPipeline.init, hn, if_pos] at hok
    exact absurd hok (by simp)
  · refine ⟨hn, ?_⟩
    intro R hR
    rw [distill_by_telephone] at hok
    simp only [DistillationPipeline.init] at hok
    simp only [distill_by_telephone_loop_eq] at hok
    simp only [hR, if_neg hn] at hok
    simp only [Except.ok.injEq, Prod.mk.injEq] at hok
    exact ⟨hok.1.symm, hok.2.symm⟩

/-- Inversion for a successful `distill_response` call: the bound was
positive and the result fields are the generic-loop projections. -/
lemma distill_response_ok_inv {σ : Type} {gen : σ → String → String × σ}
    {mi : Int} {init method : String} {ctx : Option Context} {s : σ}
    {r : DistillResponseResult} {s' : σ}
    (hok : distill_response (DistillationPipeline.init gen mi) init method ctx s = .ok (r, s')) :
    mi.toNat ≠ 0 ∧
    ∀ R, generic_distill_loop RESPONSE_DISTILLATION_PROMPT gen mi.toNat 0 init s []
        { context := ctx.getD empty_context, is_telephone := method == "telephone", exchanges := [] } = R →
      r = { method := method, initial_response := init, final_response := R.1,
            iterations := R.2.2.1.length,
            converged := decide ((R.2.1 : Int) < mi - 1),
            history := R.2.2.1, conversation := R.2.2.2.1 } ∧ s' = R.2.2.2.2 := by
  by_cases hn : mi.toNat = 0
  · rw [distill_response] at hok
    simp only [DistillationPipeline.init, hn, if_pos] at hok
    exact absurd hok (by simp)
  · refine ⟨hn, ?_⟩
    intro R hR
    rw [distill_response] at hok
    simp only [DistillationPipeline.init] at hok
    simp only [distill_response_loop_eq] at hok
    simp only [hR, if_neg hn] at hok
    simp only [Except.ok.injEq, Prod.mk.injEq] at hok
    exact ⟨hok.1.symm, hok.2.symm⟩

/-- Specialised bounds for a loop started at index 0 with empty history. -/
lemma generic_loop_bounds0 {σ : Type} (template : String) (gen : σ → String → String × σ)
    (n : Nat) (hn : n ≠ 0) (init : String) (s : σ) (conv : Conversation)
    (R : String × Nat × List HistEntry × Conversation × σ)
    (hR : generic_distill_loop template gen n 0 init s [] conv = R) :
    R.2.1 + 1 ≤ n ∧ R.2.2.1.length = R.2.1 + 1 := by
  obtain ⟨m, rfl⟩ : ∃ m, n = m + 1 := ⟨n - 1, by omega⟩
  obtain ⟨h1, h2, h3⟩ := generic_loop_bounds template gen m 0 init s [] conv R hR
  simp only [List.length_nil] at h3
  omega

/-- Arithmetic core of the `converged` flag: `iteration < max_iterations - 1`
holds iff fewer than `max_iterations` iterations ran, and is false outright
when the bound is 1. -/
lemma converged_iff_of_loop {mi : Int} (hmi : 1 ≤ mi) {last len : Nat}
    (hlast : last ≤ mi.toNat - 1) (hlen : len = last + 1) :
    (decide ((last : Int) < mi - 1) = true ↔ len < mi.toNat) ∧
    (mi = 1 → len = 1 ∧ decide ((last : Int) < mi - 1) = false) := by
  constructor
  · rw [decide_eq_true_iff]
    omega
  · intro h1
    subst h1
    refine ⟨by omega, ?_⟩
    rw [decide_eq_false_iff_not]
    omega

/-- C1: for every initial text, context and generator, and for both
distillation methods, the `converged` flag is true iff the loop exited before
exhausting `max_iterations` (i.e. `iterations < max_iterations`); in
particular with `max_iterations = 1` each call runs exactly one iteration and
returns `iterations = 1` and `converged = false`, even if the convergence
heuristic fires on that iteration. -/
theorem claim_C1_converged_iff_early_exit {σ : Type} (gen : σ → String → String × σ)
    (mi : Int) (init : String) (ctx : Option Context) (s : σ) (hmi : 1 ≤ mi) :
    (∀ r s', distill_with_history (DistillationPipeline.init gen mi) init ctx s = .ok (r, s') →
        ((r.converged = true ↔ r.iterations < mi.toNat) ∧
         (mi = 1 → r.iterations = 1 ∧ r.converged = false))) ∧
    (∀ r s', distill_by_telephone (DistillationPipeline.init gen mi) init ctx s = .ok (r, s') →
        ((r.converged = true ↔ r.iterations < mi.toNat) ∧
         (mi = 1 → r.iterations = 1 ∧ r.converged = false))) := by
  constructor
  · intro r s' hok
    obtain ⟨hn, hinv⟩ := distill_with_history_ok_inv hok
    set R := generic_distill_loop DISTILLATION_PROMPT gen mi.toNat 0 init s []
      { context := ctx.getD empty_context, is_telephone := false, exchanges := [] } with hRdef
    obtain ⟨hr, -⟩ := hinv R hRdef.symm
    obtain ⟨hle, hlen⟩ := generic_loop_bounds0 _ gen mi.toNat hn init s _ R hRdef.symm
    rw [hr]
    dsimp only
    rw [hlen]
    exact converged_iff_of_loop hmi (by omega) rfl
  · intro r s' hok
    obtain ⟨hn, hinv⟩ := distill_by_telephone_ok_inv hok
    set R := generic_distill_loop DISTILLATION_PROMPT gen mi.toNat 0 init s []
      { context := ctx.getD empty_context, is_telephone := true, exchanges := [] } with hRdef
    obtain ⟨hr, -⟩ := hinv R hRdef.symm
    obtain ⟨hle, hlen⟩ := generic_loop_bounds0 _ gen mi.toNat hn init s _ R hRdef.symm
    rw [hr]
    dsimp only
    rw [hlen]
    exact converged_iff_of_loop hmi (by omega) rfl

/-- If no recorded iteration satisfied the convergence heuristic, the loop ran
its full budget and recorded exactly `n` entries. -/
lemma generic_loop_full_run {σ : Type} (template : String) (gen : σ → String → String × σ)
    (n : Nat) (hn : n ≠ 0) (init : String) (s : σ) (conv : Conversation)
    (R : String × Nat × List HistEntry × Conversation × σ)
    (hR : generic_distill_loop template gen n 0 init s [] conv = R)
    (hnc : R.2.2.1.all (fun e => !(has_converged e.input e.output (0.95 : ℚ))) = true) :
    R.2.2.1.length = n := by
  obtain ⟨m, rfl⟩ : ∃ m, n = m + 1 := ⟨n - 1, by omega⟩
  rcases generic_loop_break template gen m 0 init s [] conv R hR with h | ⟨e, he, hc⟩
  · obtain ⟨h1, h2, h3⟩ := generic_loop_bounds template gen m 0 init s [] conv R hR
    simp only [List.length_nil] at h3
    omega
  · rw [List.all_eq_true] at hnc
    have := hnc e he
    simp [hc] at this

/-- C2: for every initial text, context and generator (with
`max_iterations >= 1`), all three distillation entry points return an
iteration count with `1 <= iterations <= max_iterations`, and
`iterations = max_iterations` whenever the convergence heuristic never
returned true on any recorded iteration: the bound is hard and never
exceeded. -/
theorem claim_C2_iteration_bounds {σ : Type} (gen : σ → String → String × σ)
    (mi : Int) (init : String) (ctx : Option Context) (s : σ) (hmi : 1 ≤ mi) :
    (∀ r s', distill_with_history (DistillationPipeline.init gen mi) init ctx s = .ok (r, s') →
        (1 ≤ r.iterations ∧ r.iterations ≤ mi.toNat ∧
         (r.history.all (fun e => !(has_converged e.input e.output (0.95 : ℚ))) = true →
           r.iterations = mi.toNat))) ∧
    (∀ r s', distill_by_telephone (DistillationPipeline.init gen mi) init ctx s = .ok (r, s') →
        (1 ≤ r.iterations ∧ r.iterations ≤ mi.toNat ∧
         (r.history.all (fun e => !(has_converged e.input e.output (0.95 : ℚ))) = true →
           r.iterations = mi.toNat))) ∧
    (∀ method r s',
        distill_response (DistillationPipeline.init gen mi) init method ctx s = .ok (r, s') →
        (1 ≤ r.iterations ∧ r.iterations ≤ mi.toNat ∧
         (r.history.all (fun e => !(has_converged e.input e.output (0.95 : ℚ))) = true →
           r.iterations = mi.toNat))) := by
  refine ⟨?_, ?_, ?_⟩
  · intro r s' hok
    obtain ⟨hn, hinv⟩ := distill_with_history_ok_inv hok
    set R := generic_distill_loop DISTILLATION_PROMPT gen mi.toNat 0 init s []
      { context := ctx.getD empty_context, is_telephone := false, exchanges := [] } with hRdef
    obtain ⟨hr, -⟩ := hinv R hRdef.symm
    obtain ⟨hle, hlen⟩ := generic_loop_bounds0 _ gen mi.toNat hn init s _ R hRdef.symm
    rw [hr]
    dsimp only
    refine ⟨by omega, by omega, ?_⟩
    intro hall
    exact generic_loop_full_run _ gen mi.toNat hn init s _ R hRdef.symm hall
  · intro r s' hok
    obtain ⟨hn, hinv⟩ := distill_by_telephone_ok_inv hok
    set R := generic_distill_loop DISTILLATION_PROMPT gen mi.toNat 0 init s []
      { context := ctx.getD empty_context, is_telephone := true, exchanges := [] } with hRdef
    obtain ⟨hr, -⟩ := hinv R hRdef.symm
    obtain ⟨hle, hlen⟩ := generic_loop_bounds0 _ gen mi.toNat hn init s _ R hRdef.symm
    rw [hr]
    dsimp only
    refine ⟨by omega, by omega, ?_⟩
    intro hall
    exact generic_loop_full_run _ gen mi.toNat hn init s _ R hRdef.symm hall
  · intro method r s' hok
    obtain ⟨hn, hinv⟩ := distill_response_ok_inv hok
    set R := generic_distill_loop RESPONSE_DISTILLATION_PROMPT gen mi.toNat 0 init s []
      { context := ctx.getD empty_context, is_telephone := method == "telephone",
        exchanges := [] } with hRdef
    obtain ⟨hr, -⟩ := hinv R hRdef.symm
    obtain ⟨hle, hlen⟩ := generic_loop_bounds0 _ gen mi.toNat hn init s _ R hRdef.symm
    rw [hr]
    dsimp only
    refine ⟨by omega, by omega, ?_⟩
    intro hall
    exact generic_loop_full_run _ gen mi.toNat hn init s _ R hRdef.symm hall

/-- C5: for every initial text, context and generator,
`distill_with_history` and `distill_by_telephone` return results equal in
final text, iteration count, converged flag, per-iteration history and
generator end-state (hence they issue the same sequence of generation
requests); they differ only in the method label and in the telephone flag of
the bookkeeping conversation, whose exchanges and context also coincide. -/
theorem claim_C5_methods_agree {σ : Type} (gen : σ → String → String × σ)
    (mi : Int) (init : String) (ctx : Option Context) (s : σ) :
    ∀ rh sh rt st,
      distill_with_history (DistillationPipeline.init gen mi) init ctx s = .ok (rh, sh) →
      distill_by_telephone (DistillationPipeline.init gen mi) init ctx s = .ok (rt, st) →
      rh.final_prompt = rt.final_prompt ∧ rh.iterations = rt.iterations ∧
        rh.converged = rt.converged ∧ rh.history = rt.history ∧
        rh.initial_prompt = init ∧ rt.initial_prompt = init ∧ sh = st ∧
        rh.method = "with_history" ∧ rt.method = "telephone" ∧
        rh.conversation.is_telephone = false ∧ rt.conversation.is_telephone = true ∧
        rh.conversation.exchanges = rt.conversation.exchanges ∧
        rh.conversation.context = rt.conversation.context := by
  intro rh sh rt st hokH hokT
  obtain ⟨hnH, hinvH⟩ := distill_with_history_ok_inv hokH
  obtain ⟨hnT, hinvT⟩ := distill_by_telephone_ok_inv hokT
  set RH := generic_distill_loop DISTILLATION_PROMPT gen mi.toNat 0 init s []
    { context := ctx.getD empty_context, is_telephone := false, exchanges := [] } with hRH
  set RT := generic_distill_loop DISTILLATION_PROMPT gen mi.toNat 0 init s []
    { context := ctx.getD empty_context, is_telephone := true, exchanges := [] } with hRT
  obtain ⟨hrH, hsH⟩ := hinvH RH hRH.symm
  obtain ⟨hrT, hsT⟩ := hinvT RT hRT.symm
  obtain ⟨e1, e2, e3, e4, e5⟩ := generic_loop_conv_indep DISTILLATION_PROMPT gen mi.toNat 0
    init s []
    { context := ctx.getD empty_context, is_telephone := false, exchanges := [] }
    { context := ctx.getD empty_context, is_telephone := true, exchanges := [] }
    RH RT rfl hRH.symm hRT.symm
  obtain ⟨mH, cH⟩ := generic_loop_conv_fixed DISTILLATION_PROMPT gen mi.toNat 0
    init s [] _ RH hRH.symm
  obtain ⟨mT, cT⟩ := generic_loop_conv_fixed DISTILLATION_PROMPT gen mi.toNat 0
    init s [] _ RT hRT.symm
  subst hrH hrT hsH hsT
  refine ⟨e1, by rw [e3], by rw [e2], e3, rfl, rfl, e5, rfl, rfl, mH, mT, e4, ?_⟩
  rw [cH, cT]


/-- C7 (counterexample): on a concrete run, the recorded request text is the
template "Condense the prompt below to be as clear as possible." plus two
newlines plus the input, which differs from the claimed template "Condense
the below to be as clear as possible.". -/
theorem claim_C7_counterexample :
    (distill_with_history (DistillationPipeline.init gen_empty 1) "Test" none ()).map
      (fun rs => rs.1.history.map HistEntry.request) =
      .ok ["Condense the prompt below to be as clear as possible.\n\nTest"] ∧
    "Condense the prompt below to be as clear as possible.\n\nTest" ≠
      "Condense the below to be as clear as possible." ++ "\n\n" ++ "Test" :=
  ⟨rfl, by decide⟩

/-- C7 (amended): every history entry's request equals the fixed instruction
template "Condense the prompt below to be as clear as possible." followed by
two newline characters and that iteration's input text, for every initial
text, context and generator and both distillation methods. -/
theorem claim_C7_request_template {σ : Type} (gen : σ → String → String × σ)
    (mi : Int) (init : String) (ctx : Option Context) (s : σ) :
    (∀ r s', distill_with_history (DistillationPipeline.init gen mi) init ctx s = .ok (r, s') →
        r.history.all
          (fun e => e.request == DISTILLATION_PROMPT ++ "\n\n" ++ e.input) = true) ∧
    (∀ r s', distill_by_telephone (DistillationPipeline.init gen mi) init ctx s = .ok (r, s') →
        r.history.all
          (fun e => e.request == DISTILLATION_PROMPT ++ "\n\n" ++ e.input) = true) := by
  constructor
  · intro r s' hok
    obtain ⟨hn, hinv⟩ := distill_with_history_ok_inv hok
    set R := generic_distill_loop DISTILLATION_PROMPT gen mi.toNat 0 init s []
      { context := ctx.getD empty_context, is_telephone := false, exchanges := [] } with hRdef
    obtain ⟨hr, -⟩ := hinv R hRdef.symm
    rw [hr]
    dsimp only
    rw [List.all_eq_true]
    intro e he
    rw [beq_iff_eq]
    exact generic_loop_requests DISTILLATION_PROMPT gen mi.toNat 0 init s [] _ R
      hRdef.symm (by simp) e he
  · intro r s' hok
    obtain ⟨hn, hinv⟩ := distill_by_telephone_ok_inv hok
    set R := generic_distill_loop DISTILLATION_PROMPT gen mi.toNat 0 init s []
      { context := ctx.getD empty_context, is_telephone := true, exchanges := [] } with hRdef
    obtain ⟨hr, -⟩ := hinv R hRdef.symm
    rw [hr]
    dsimp only
    rw [List.all_eq_true]
    intro e he
    rw [beq_iff_eq]
    exact generic_loop_requests DISTILLATION_PROMPT gen mi.toNat 0 init s [] _ R
      hRdef.symm (by simp) e he

/-- C7 witness: the amended request-template property instantiated on a
concrete run. -/
theorem claim_C7_request_template_witness :
    R1.history.all (fun e => e.request == DISTILLATION_PROMPT ++ "\n\n" ++ e.input) = true :=
  (claim_C7_request_template gen_empty 1 "Test" none ()).1 R1 () rfl

/-- C1 witness: the converged-flag characterisation instantiated on a concrete
one-iteration run. -/
theorem claim_C1_converged_iff_early_exit_witness :
    (R1.converged = true ↔ R1.iterations < (1 : Int).toNat) ∧
    (R1.iterations = 1 ∧ R1.converged = false) := by
  have h := (claim_C1_converged_iff_early_exit gen_empty 1 "Test" none () (by decide)).1 R1 () rfl
  exact ⟨h.1, h.2 rfl⟩

/-- C2 witness: iteration bounds instantiated on a concrete two-iteration run
in which the heuristic never fires. -/
theorem claim_C2_iteration_bounds_witness :
    (1 ≤ R2.iterations ∧ R2.iterations ≤ (2 : Int).toNat) ∧ R2.iterations = (2 : Int).toNat := by
  have h := (claim_C2_iteration_bounds gen_empty 2 "Test prompt" none () (by decide)).1 R2 () rfl
  exact ⟨⟨h.1, h.2.1⟩, h.2.2 (by decide)⟩

/-- C5 witness: method agreement instantiated on concrete runs of both
methods. -/
theorem claim_C5_methods_agree_witness :
    R1.final_prompt = RT1.final_prompt ∧ R1.iterations = RT1.iterations ∧
      R1.converged = RT1.converged ∧ R1.history = RT1.history ∧
      R1.initial_prompt = "Test" ∧ RT1.initial_prompt = "Test" ∧ () = () ∧
      R1.method = "with_history" ∧ RT1.method = "telephone" ∧
      R1.conversation.is_telephone = false ∧ RT1.conversation.is_telephone = true ∧
      R1.conversation.exchanges = RT1.conversation.exchanges ∧
      R1.conversation.context = RT1.conversation.context :=
  claim_C5_methods_agree gen_empty 1 "Test" none () R1 () RT1 () rfl rfl

/-- C4 (code-bug evaluation): `DistillationPipeline.__init__` performs no
validation — construction succeeds for every bound, including 0 and negative
values — and a subsequent distill call on such a pipeline fails with
`UnboundLocalError` when building the result (the loop variable is unbound),
not with a construction-time configuration error. -/
theorem claim_C4_no_construction_validation :
    (∀ (σ : Type) (g : σ → String → String × σ) (mi : Int),
        DistillationPipeline.init g mi = { llm := g, max_iterations := mi }) ∧
    distill_with_history (DistillationPipeline.init gen_empty 0) "Test prompt" none () =
      .error .unboundLocalError ∧
    distill_with_history (DistillationPipeline.init gen_empty (-3)) "Test prompt" none () =
      .error .unboundLocalError ∧
    distill_by_telephone (DistillationPipeline.init gen_empty 0) "Test prompt" none () =
      .error .unboundLocalError ∧
    distill_response (DistillationPipeline.init gen_empty 0) "Test" "telephone" none () =
      .error .unboundLocalError :=
  ⟨fun _ _ _ => rfl, rfl, rfl, rfl, rfl⟩

/-- C6: for every telephone-mode conversation, `formulate_prompt` depends only
on the context — any two exchange lists give the identical prompt — and the
prompt is exactly the context text followed by a newline (no exchange text is
ever concatenated). -/
theorem claim_C6_telephone_prompt_ignores_history :
    (∀ (ctx : Context) (exs exs' : List (String × String)),
        Conversation.formulate_prompt { context := ctx, is_telephone := true, exchanges := exs } =
          Conversation.formulate_prompt
            { context := ctx, is_telephone := true, exchanges := exs' }) ∧
    (∀ (ctx : Context) (exs : List (String × String)),
        Conversation.formulate_prompt { context := ctx, is_telephone := true, exchanges := exs } =
          ctx.toStr ++ "\n") := by
  exact ⟨fun ctx exs exs' => rfl, fun ctx exs => rfl⟩

/-- C8 (code-bug evaluation): in telephone mode, `render` of a conversation
with at least one exchange returns exactly the most recent exchange's output;
on an empty telephone conversation it raises `IndexError` — an out-of-range
indexing fault — rather than a dedicated empty-state error. -/
theorem claim_C8_telephone_render :
    (∀ (ctx : Context) (exs : List (String × String)) (e : String × String),
        Conversation.render { context := ctx, is_telephone := true, exchanges := exs ++ [e] } =
          .ok e.2) ∧
    Conversation.render { context := empty_context, is_telephone := true, exchanges := [] } =
      .error .indexError := by
  constructor
  · intro ctx exs e
    simp [Conversation.render]
  · rfl

/-- C10: `get_all_contexts` returns exactly 7 entries with the expected key
set, and for every key `k`, `get_context_by_name k` succeeds with a context
whose `name` attribute equals `k` (registry round-trip). -/
theorem claim_C10_registry_roundtrip :
    get_all_contexts.map Prod.fst =
      ["isolation", "embodied_positive", "embodied_neutral", "embodied_negative",
       "ai_assistant_positive", "ai_assistant_neutral", "ai_assistant_negative"] ∧
    get_all_contexts.length = 7 ∧
    (get_all_contexts.map Prod.fst).all
      (fun k =>
        match get_context_by_name k with
        | .ok c => c.name == some k
        | .error _ => false) = true :=
  ⟨rfl, rfl, rfl⟩

/-- Position-wise zip counting equals counting agreeing indices below the
minimum length (with optional indexing). -/
lemma countP_zip_eq_range (l1 l2 : List Char) :
    (l1.zip l2).countP (fun ab => ab.1 == ab.2) =
      ((List.range (min l1.length l2.length)).filter
        (fun i => decide (l1[i]? = l2[i]?))).length := by
  induction l1 generalizing l2 with
  | nil => simp
  | cons a t1 ih =>
    cases l2 with
    | nil => simp
    | cons b t2 =>
      rw [List.zip_cons_cons, List.countP_cons]
      rw [List.length_cons, List.length_cons, Nat.succ_min_succ, List.range_succ_eq_map]
      rw [List.filter_cons]
      rw [List.filter_map]
      simp only [List.getElem?_cons_zero, List.getElem?_cons_succ, Option.some.injEq,
        Function.comp_def, List.length_map]
      rw [ih t2]
      by_cases hab : a = b
      · simp [hab]
      · simp [hab]

/-- Lower-casing is length-preserving. -/
lemma lowerChars_length (s : String) : (lowerChars s).length = s.length := by
  unfold lowerChars
  rw [List.length_map]
  rfl

/-- The source's zip-based common-character count coincides with the spec's
index-based description. -/
lemma common_chars_eq_spec (p c : String) : common_chars p c = spec_char_matches p c := by
  unfold common_chars spec_char_matches
  rw [countP_zip_eq_range]
  rw [lowerChars_length, lowerChars_length]

/-- The source heuristic agrees with the spec's description of it on all
inputs and thresholds. -/
lemma has_converged_eq_spec (p c : String) (t : ℚ) :
    has_converged p c t = spec_has_converged p c t := by
  simp only [has_converged, spec_has_converged, common_chars_eq_spec]
  by_cases hc : c.length = 0
  · simp [hc]
  · rw [if_neg hc, if_neg hc, if_pos (show max p.length c.length > 0 by omega)]

/-- Zipping a list with itself makes every position agree. -/
lemma countP_zip_self (l : List Char) : (l.zip l).countP (fun ab => ab.1 == ab.2) = l.length := by
  induction l with
  | nil => rfl
  | cons a t ih => simp [List.zip_cons_cons, List.countP_cons, ih]

/-- Identical non-empty strings always converge: the score is exactly 1. -/
lemma has_converged_self (s : String) (h : 0 < s.length) :
    has_converged s s (0.95 : ℚ) = true := by
  have hcc : common_chars s s = s.length := by
    unfold common_chars
    rw [countP_zip_self, lowerChars_length]
  simp only [has_converged, hcc]
  rw [if_neg (by omega), if_pos (by omega)]
  rw [decide_eq_true_iff]
  rw [min_self, max_self]
  have hne : (s.length : ℚ) ≠ 0 := Nat.cast_ne_zero.mpr (by omega)
  rw [div_self hne]
  norm_num

/-- The spec's concrete negative example, evaluated on the source heuristic:
score = (11/12 + 0/12)/2 < 0.9. -/
lemma hello_goodbye_not_converged :
    has_converged "Hello world" "Goodbye moon" (0.9 : ℚ) = false := by
  have h1 : ("Hello world" : String).length = 11 := rfl
  have h2 : ("Goodbye moon" : String).length = 12 := rfl
  have h3 : common_chars "Hello world" "Goodbye moon" = 0 := by decide
  simp only [has_converged, h1, h2, h3]
  norm_num

/-- C3: `has_converged` returns false when `current` is empty and otherwise
returns true iff `(lengthRatio + charSimilarity)/2 >= threshold` with
`lengthRatio = min/max` of the lengths and `charSimilarity` the number of
positions at which the lower-cased strings agree divided by the max length
(proved as equality with the spec-transcribed `spec_has_converged`, for every
threshold including 0.95); identical non-empty strings converge at 0.95, and
("Hello world", "Goodbye moon") does not converge at 0.9. -/
theorem claim_C3_convergence_heuristic :
    (∀ (previous current : String) (threshold : ℚ),
        has_converged previous current threshold =
          spec_has_converged previous current threshold) ∧
    (∀ s : String, 0 < s.length → has_converged s s (0.95 : ℚ) = true) ∧
    has_converged "Hello world" "Goodbye moon" (0.9 : ℚ) = false :=
  ⟨has_converged_eq_spec, has_converged_self, hello_goodbye_not_converged⟩

/-- C3 witness: self-convergence instantiated at the non-empty string
"abc". -/
theorem claim_C3_convergence_heuristic_witness :
    has_converged "abc" "abc" (0.95 : ℚ) = true :=
  claim_C3_convergence_heuristic.2.1 "abc" (by decide)

/-- `charsContain` decides the substring (infix) relation. -/
lemma charsContain_iff (n h : List Char) : charsContain n h = true ↔ n <:+: h := by
  unfold charsContain
  rw [List.any_eq_true]
  constructor
  · rintro ⟨t, ht, hp⟩
    rw [List.mem_tails] at ht
    rw [List.isPrefixOf_iff_prefix] at hp
    exact List.infix_iff_prefix_suffix.mpr ⟨t, hp, ht⟩
  · intro hinf
    obtain ⟨t, hp, hs⟩ := List.infix_iff_prefix_suffix.mp hinf
    exact ⟨t, (List.mem_tails _ _).mpr hs, List.isPrefixOf_iff_prefix.mpr hp⟩

/-- A line containing "similarity score" also contains "score". -/
lemma score_contain_of_simscore {low : List Char}
    (h : charsContain "similarity score".toList low = true) :
    charsContain "score".toList low = true := by
  rw [charsContain_iff] at h ⊢
  exact List.IsInfix.trans (by decide) h

/-- The source's disjunctive line test collapses to the "score" test. -/
lemma score_cond_collapse (low : List Char) :
    (charsContain "similarity score".toList low || charsContain "score".toList low) =
      charsContain "score".toList low := by
  cases hs : charsContain "score".toList low
  · cases hss : charsContain "similarity score".toList low
    · rfl
    · have hcon := score_contain_of_simscore hss
      rw [hs] at hcon
      exact (Bool.false_ne_true hcon).elim
  · simp

/-- One parsing step changes the score exactly as the corrected score step
does. -/
lemma parse_step_fst (acc : Nat × String × String) (line : List Char) :
    (parse_evaluation_step acc line).1 = corrected_score_step acc.1 line := by
  simp only [parse_evaluation_step, corrected_score_step, score_cond_collapse]
  split
  · split <;> rfl
  · split
    · rfl
    · split <;> rfl

/-- The full parsing fold computes the corrected score in its first
component. -/
lemma parse_fold_fst : ∀ (lines : List (List Char)) (acc : Nat × String × String),
    (List.foldl parse_evaluation_step acc lines).1 =
      List.foldl corrected_score_step acc.1 lines := by
  intro lines
  induction lines with
  | nil => intro acc; rfl
  | cons line rest ih =>
    intro acc
    rw [List.foldl_cons, List.foldl_cons, ih, parse_step_fst]

/-- The corrected score step preserves the `[1, 10]` range. -/
lemma corrected_step_range (sc : Nat) (line : List Char) (h1 : 1 ≤ sc) (h2 : sc ≤ 10) :
    1 ≤ corrected_score_step sc line ∧ corrected_score_step sc line ≤ 10 := by
  simp only [corrected_score_step]
  split
  · split
    · constructor <;> omega
    · exact ⟨h1, h2⟩
  · exact ⟨h1, h2⟩

/-- The corrected score fold stays in `[1, 10]` from an in-range start. -/
lemma corrected_fold_range : ∀ (lines : List (List Char)) (sc : Nat), 1 ≤ sc → sc ≤ 10 →
    1 ≤ List.foldl corrected_score_step sc lines ∧
      List.foldl corrected_score_step sc lines ≤ 10 := by
  intro lines
  induction lines with
  | nil => intro sc h1 h2; exact ⟨h1, h2⟩
  | cons line rest ih =>
    intro sc h1 h2
    rw [List.foldl_cons]
    obtain ⟨g1, g2⟩ := corrected_step_range sc line h1 h2
    exact ih _ g1 g2

/-- C9 (counterexample): the reply "similarity: 3" contains "similarity" but
not "score"; the claimed rule extracts 3 but the source parser returns the
default 5 (also through `compare_responses`).  Moreover with several matching
lines ("Score: 2\nscore: 9") the claimed "first integer found" is 2 while the
source returns the last matching line's 9. -/
theorem claim_C9_counterexample :
    (parse_evaluation "similarity: 3").1 = 5 ∧
    claim_similarity_score "similarity: 3" = 3 ∧
    (compare_responses gen_similarity_reply "a" "b" "" "" ()).1.similarity_score = 5 ∧
    (parse_evaluation "Score: 2\nscore: 9").1 = 9 ∧
    claim_similarity_score "Score: 2\nscore: 9" = 2 :=
  ⟨by decide, by decide, by decide, by decide, by decide⟩

/-- C9 (amended): for every pair of responses, contexts and evaluator
generator, `compare_responses` returns a `similarity_score` in `[1, 10]`,
computed from the reply by taking, on each stripped line whose lower-casing
contains "score" (lines containing only "similarity" are ignored), the first
integer clamped to `[1, 10]`, with the last such line winning and default 5;
parsing never fails. -/
theorem claim_C9_similarity_score_range {σ : Type} (gen : σ → String → String × σ)
    (response1 response2 context1 context2 : String) (s : σ) :
    1 ≤ (compare_responses gen response1 response2 context1 context2 s).1.similarity_score ∧
    (compare_responses gen response1 response2 context1 context2 s).1.similarity_score ≤ 10 ∧
    (compare_responses gen response1 response2 context1 context2 s).1.similarity_score =
      corrected_similarity_score
        (compare_responses gen response1 response2 context1 context2 s).1.full_evaluation := by
  have heq : (compare_responses gen response1 response2 context1 context2 s).1.similarity_score =
      corrected_similarity_score
        (compare_responses gen response1 response2 context1 context2 s).1.full_evaluation :=
    parse_fold_fst _ _
  have hr := corrected_fold_range
    (splitCharsOnNL ((gen s (evaluation_prompt response1 response2 context1 context2)).1).toList)
    5 (by omega) (by omega)
  exact ⟨by rw [heq]; exact hr.1, by rw [heq]; exact hr.2, heq⟩
